import Mathlib

/-!
Verification development for the saturn hand-controlled particle
visualization (modules `HandTracker`, `ParticleSystemHand`, and the app
entry point).

The definitions below are shallow embeddings of the JavaScript source.
JavaScript numbers are modelled as rationals (`ℚ`) for all the arithmetic
the claims depend on.  The transcendental library functions
(`Math.sqrt`, `Math.atan2`, `Math.sin`, `Math.cos`) and the constant
`Math.PI` are taken as parameters of the embedded functions, since every
statement proved here is independent of their exact values; where `NaN`
propagation matters (frame-level landmark processing) numbers are
modelled as `Option ℚ`, with `none` playing the role of `NaN`.
-/

namespace Saturn

/-! ## Definitions: HandTracker signal conditioning (per-frame arithmetic) -/

/-- Smoothing factor: `this.smoothingFactor = 0.3` in the HandTracker
constructor; it is never reassigned anywhere in the repository. -/
def smoothingFactor : ℚ := 3/10

/-- Pre-smoothing distance signal of `HandTracker.calculateDistance`
applied to the already computed `handSize` (the Euclidean
wrist-to-middle-tip length, itself produced by `Math.sqrt`):
`let distance = 1 - ((handSize - 0.15) / (0.35 - 0.15));`
`distance = Math.max(0, Math.min(1, distance));`. -/
def rawDistance (handSize : ℚ) : ℚ :=
  max 0 (min 1 (1 - ((handSize - 15/100) / (35/100 - 15/100))))

/-- The smoothing update of `this.smoothedDistance` performed by
`HandTracker.calculateDistance`:
`this.smoothedDistance += (distance - this.smoothedDistance) * this.smoothingFactor;`. -/
def calculateDistanceStep (state handSize : ℚ) : ℚ :=
  state + (rawDistance handSize - state) * smoothingFactor

/-- Truncation toward zero, the rounding used by the JavaScript `%`
operator on numbers. -/
def ratTrunc (q : ℚ) : ℤ := if 0 ≤ q then ⌊q⌋ else ⌈q⌉

/-- The JavaScript remainder operator on numbers:
`x % y = x - y * trunc (x / y)` (sign follows the dividend). -/
def jsRem (x y : ℚ) : ℚ := x - y * ratTrunc (x / y)

/-- Angle normalization of `HandTracker.calculateRotation`:
`angle = ((angle + 180) % 360) - 180;` where the incoming `angle` is
`Math.atan2(dy, dx) * (180 / Math.PI)`, hence lies in `[-180, 180]`. -/
def normalizeAngle (a : ℚ) : ℚ := jsRem (a + 180) 360 - 180

/-- The wrap-corrected smoothing delta of `HandTracker.calculateRotation`:
`let rotationDelta = angle - this.smoothedRotation;`
`if (rotationDelta > 180) rotationDelta -= 360;`
`if (rotationDelta < -180) rotationDelta += 360;`
The input `a` is the raw angle in degrees delivered by `Math.atan2`,
before the in-function normalization. -/
def correctedDelta (state a : ℚ) : ℚ :=
  let angle := normalizeAngle a
  let d0 := angle - state
  let d1 := if d0 > 180 then d0 - 360 else d0
  if d1 < -180 then d1 + 360 else d1

/-- One full update of `this.smoothedRotation` by
`HandTracker.calculateRotation` on a detected frame:
`this.smoothedRotation += rotationDelta * this.smoothingFactor;`. -/
def calculateRotationStep (state a : ℚ) : ℚ :=
  state + correctedDelta state a * smoothingFactor

/-- Smoothed-distance states reachable across frames: the constructor
initializes `this.smoothedDistance = 0.5`, and every detected frame
applies `calculateDistanceStep` with some nonnegative `handSize`
(a Euclidean norm).  No-hand frames leave the state untouched. -/
inductive ReachableDistance : ℚ → Prop
  | init : ReachableDistance (1/2)
  | step (s h : ℚ) : ReachableDistance s → 0 ≤ h →
      ReachableDistance (calculateDistanceStep s h)

/-- Smoothed-rotation states reachable across frames: the constructor
initializes `this.smoothedRotation = 0`, and every detected frame applies
`calculateRotationStep` with a raw angle in the range of
`Math.atan2(dy, dx) * (180 / Math.PI)`, namely `[-180, 180]`.  No-hand
frames leave the state untouched. -/
inductive ReachableRotation : ℚ → Prop
  | init : ReachableRotation 0
  | step (s a : ℚ) : ReachableRotation s → -180 ≤ a → a ≤ 180 →
      ReachableRotation (calculateRotationStep s a)

/-- A sequence of seven valid detected-frame raw angles (six frames at
`150°`, then one at `-60°`) driving the smoothed rotation from its
initial state `0` to `182.646855`, outside `(-180, 180]`. -/
def escapeInputs : List ℚ := [150, 150, 150, 150, 150, 150, -60]

/-- The smoothed rotation after conditioning the frames of
`escapeInputs`, starting from the initial state `0`. -/
def escapeState : ℚ := escapeInputs.foldl calculateRotationStep 0

/-- Detected-frame raw angles pumping the smoothed rotation up to
`375.9`: on each frame after the first, the raw angle sits just across
the wrap boundary from the current state, so the single `+360`
correction yields a per-step delta of `+179`. -/
def pumpInputs : List ℚ := [179, -1273/10, -736/10, -199/10, 338/10, 875/10, 1412/10]

/-- The smoothed rotation after conditioning the frames of `pumpInputs`,
starting from the initial state `0`. -/
def pumpState : ℚ := pumpInputs.foldl calculateRotationStep 0

/-- The raw angles of the boundary-oscillation scenario:
`179°, -179°, 179°, -179°, ...`. -/
def oscInput (n : ℕ) : ℚ := if n % 2 = 0 then 179 else -179

/-- The smoothed rotation obtained by conditioning the oscillating frame
sequence `oscInput`, starting from the initial state `0`. -/
def oscSeq : ℕ → ℚ
  | 0 => 0
  | n + 1 => calculateRotationStep (oscSeq n) (oscInput n)

/-! ## Definitions: HandTracker frame-level processing with NaN

`onResults` receives the raw MediaPipe result.  The source checks only
`results.multiHandLandmarks && results.multiHandLandmarks.length > 0`;
it never validates the landmark count or the coordinate values.  `none`
models both a missing landmark-list (`frame = none`) and a `NaN`
coordinate (`JsNum = none`).  Accessing a property of an out-of-range
landmark (`landmarks[12]` when the list is shorter) throws a `TypeError`
in JavaScript; this is modelled by `Except.error`. -/

/-- A JavaScript number that may be `NaN` (`none` models `NaN`). -/
abbrev JsNum := Option ℚ

/-- JavaScript `+` with `NaN` propagation. -/
def jsAdd : JsNum → JsNum → JsNum
  | some a, some b => some (a + b)
  | _, _ => none

/-- JavaScript `-` with `NaN` propagation. -/
def jsSub : JsNum → JsNum → JsNum
  | some a, some b => some (a - b)
  | _, _ => none

/-- JavaScript `*` with `NaN` propagation. -/
def jsMul : JsNum → JsNum → JsNum
  | some a, some b => some (a * b)
  | _, _ => none

/-- JavaScript `/` with `NaN` propagation.  The only divisor used by the
source is the nonzero constant `0.35 - 0.15`, so the zero-divisor case
(JavaScript `Infinity`) never arises. -/
def jsDiv : JsNum → JsNum → JsNum
  | some a, some b => some (a / b)
  | _, _ => none

/-- `Math.min`, which returns `NaN` when either argument is `NaN`. -/
def jsMin : JsNum → JsNum → JsNum
  | some a, some b => some (min a b)
  | _, _ => none

/-- `Math.max`, which returns `NaN` when either argument is `NaN`. -/
def jsMax : JsNum → JsNum → JsNum
  | some a, some b => some (max a b)
  | _, _ => none

/-- `Math.sqrt`, parametric in its value `sq` on nonnegative rationals;
`Math.sqrt` of a negative number or of `NaN` is `NaN`. -/
def jsSqrt (sq : ℚ → ℚ) : JsNum → JsNum
  | some q => if q < 0 then none else some (sq q)
  | none => none

/-- `Math.atan2(dy, dx) * (180 / Math.PI)`, parametric in its value
`at2` on real arguments; `NaN` in either argument yields `NaN`. -/
def jsAtan2 (at2 : ℚ → ℚ → ℚ) : JsNum → JsNum → JsNum
  | some y, some x => some (at2 y x)
  | _, _ => none

/-- The `%` operator lifted to possibly-`NaN` numbers. -/
def jsRemNum : JsNum → JsNum → JsNum
  | some a, some b => some (jsRem a b)
  | _, _ => none

/-- The JavaScript comparison `x > c` as used in the `if` statements:
any comparison with `NaN` is false. -/
def jsGtC : JsNum → ℚ → Bool
  | some a, c => decide (c < a)
  | none, _ => false

/-- The JavaScript comparison `x < c`: any comparison with `NaN` is
false. -/
def jsLtC : JsNum → ℚ → Bool
  | some a, c => decide (a < c)
  | none, _ => false

/-- One MediaPipe hand landmark: a 2-D point whose coordinates may be
`NaN`.  (The source also receives a `z` coordinate but never reads it.) -/
structure Landmark where
  x : JsNum
  y : JsNum
deriving DecidableEq

/-- The persistent HandTracker state the claims are about:
`handState.detected`, `this.smoothedDistance` and
`this.smoothedRotation`.  (`handState.distance` and `handState.rotation`
merely mirror the smoothed values, and `rawLandmarks` is only stored for
the skeleton overlay.) -/
structure TrackerState where
  detected : Bool
  smoothedDistance : JsNum
  smoothedRotation : JsNum
deriving DecidableEq

/-- The constructor state: `detected: false`, `smoothedDistance = 0.5`,
`smoothedRotation = 0`. -/
def initTracker : TrackerState := ⟨false, some (1/2), some 0⟩

/-- `HandTracker.calculateDistance` at frame level: reads
`landmarks[0]` and `landmarks[12]`; an out-of-range access throws
(`Except.error`), otherwise the smoothed distance is updated.
Parametric in the value `sq` of `Math.sqrt`. -/
def calculateDistanceJs (sq : ℚ → ℚ) (st : TrackerState)
    (landmarks : List Landmark) : Except Unit TrackerState :=
  match landmarks.get? 0, landmarks.get? 12 with
  | some wrist, some middleTip =>
      let dx := jsSub middleTip.x wrist.x
      let dy := jsSub middleTip.y wrist.y
      let handSize := jsSqrt sq (jsAdd (jsMul dx dx) (jsMul dy dy))
      let distance0 := jsSub (some 1)
        (jsDiv (jsSub handSize (some (15/100))) (some (35/100 - 15/100)))
      let distance := jsMax (some 0) (jsMin (some 1) distance0)
      let newSmoothed := jsAdd st.smoothedDistance
        (jsMul (jsSub distance st.smoothedDistance) (some smoothingFactor))
      .ok { st with smoothedDistance := newSmoothed }
  | _, _ => .error ()

/-- `HandTracker.calculateRotation` at frame level: reads `landmarks[0]`
and `landmarks[9]`; an out-of-range access throws, otherwise the
smoothed rotation is updated (normalization, single wrap correction,
smoothing).  Parametric in the value `at2` of
`Math.atan2 · (180 / Math.PI)`. -/
def calculateRotationJs (at2 : ℚ → ℚ → ℚ) (st : TrackerState)
    (landmarks : List Landmark) : Except Unit TrackerState :=
  match landmarks.get? 0, landmarks.get? 9 with
  | some wrist, some middleBase =>
      let dx := jsSub middleBase.x wrist.x
      let dy := jsSub middleBase.y wrist.y
      let angle0 := jsAtan2 at2 dy dx
      let angle := jsSub (jsRemNum (jsAdd angle0 (some 180)) (some 360)) (some 180)
      let delta0 := jsSub angle st.smoothedRotation
      let delta1 := if jsGtC delta0 180 then jsSub delta0 (some 360) else delta0
      let delta := if jsLtC delta1 (-180) then jsAdd delta1 (some 360) else delta1
      let newSmoothed := jsAdd st.smoothedRotation (jsMul delta (some smoothingFactor))
      .ok { st with smoothedRotation := newSmoothed }
  | _, _ => .error ()

/-- `HandTracker.onResults`: a present, nonempty landmark list is
processed as a detected frame (`calculateDistance`, then
`calculateRotation`, then `detected = true`); an absent or empty list is
the no-hand branch, which only clears the `detected` flag. -/
def onResultsJs (sq : ℚ → ℚ) (at2 : ℚ → ℚ → ℚ) (st : TrackerState) :
    Option (List Landmark) → Except Unit TrackerState
  | some landmarks =>
      if 0 < landmarks.length then
        match calculateDistanceJs sq st landmarks with
        | .error e => .error e
        | .ok st1 =>
            match calculateRotationJs at2 st1 landmarks with
            | .error e => .error e
            | .ok st2 => .ok { st2 with detected := true }
      else .ok { st with detected := false }
  | none => .ok { st with detected := false }

/-- A run of detection callbacks.  A thrown exception leaves the tracker
state as it was when the throw happened (in the source, the throw occurs
before any state mutation of the offending frame). -/
def processFrames (sq : ℚ → ℚ) (at2 : ℚ → ℚ → ℚ)
    (frames : List (Option (List Landmark))) (st : TrackerState) : TrackerState :=
  frames.foldl (fun s f =>
    match onResultsJs sq at2 s f with
    | .ok s1 => s1
    | .error _ => s) st

/-- A malformed frame: the expected 21 landmarks, but every coordinate
is `NaN`. -/
def nanFrame : List Landmark := List.replicate 21 ⟨none, none⟩

/-- A malformed frame with only 5 landmarks (fewer than the 13 needed to
reach `landmarks[12]`). -/
def shortFrame : List Landmark := List.replicate 5 ⟨some 0, some 0⟩

/-- An arbitrary instantiation of a transcendental parameter, used only
in closed statements whose value does not depend on it. -/
def zeroFun : ℚ → ℚ := fun _ => 0

/-- An arbitrary instantiation of the two-argument `atan2` parameter. -/
def zeroFun2 : ℚ → ℚ → ℚ := fun _ _ => 0

/-! ## Definitions: ParticleSystem (ParticleSystemHand.js)

Only the fields the claims are about are modelled; particle geometry
(random point positions), colors, fog and the renderer are presentation
data never read back by the animation logic.  `camera.lookAt` changes
only the camera orientation, which no claim mentions, and is not
modelled. -/

/-- One entry of `this.layers` (color omitted; it is never read by the
animation logic). -/
structure LayerConfig where
  count : ℕ
  size : ℚ
  opacity : ℚ
  radius : ℚ
deriving DecidableEq

/-- `this.layers.outer`. -/
def layersOuter : LayerConfig := ⟨5000, 3/100, 6/10, 4⟩

/-- `this.layers.middle`. -/
def layersMiddle : LayerConfig := ⟨3000, 5/100, 9/10, 5/2⟩

/-- `this.layers.inner`. -/
def layersInner : LayerConfig := ⟨2000, 8/100, 1, 3/2⟩

/-- The mutable state of one `THREE.Points` layer that the animation
code touches: its three Euler rotation components, its material opacity
and its material point size. -/
structure LayerState where
  rotX : ℚ
  rotY : ℚ
  rotZ : ℚ
  opacity : ℚ
  size : ℚ
deriving DecidableEq

/-- `createParticleLayer`: a fresh `THREE.Points` object has zero
rotation; its material carries the configured opacity and size. -/
def createParticleLayer (config : LayerConfig) : LayerState :=
  ⟨0, 0, 0, config.opacity, config.size⟩

/-- The ParticleSystem state: constructor fields plus the scene-graph
values the animation code reads and writes (camera position, group
rotation and scale, and the five layer slots).  Crucially,
`createParticleLayer` stores each layer under `this[layerName + "Shell"]`
— `outerShell`, `middleShell`, `innerShell` — while `animateParticles`
reads `this.middleRing` and `this.innerCore`, which are initialized to
`null` in the constructor and never assigned anywhere. -/
structure PSState where
  cameraDistance : ℚ
  targetCameraDistance : ℚ
  sphereRotation : ℚ
  targetRotation : ℚ
  autoBreathTime : ℚ
  isHandControlled : Bool
  time : ℚ
  cameraX : ℚ
  cameraY : ℚ
  cameraZ : ℚ
  groupRotX : ℚ
  groupRotY : ℚ
  groupScale : ℚ
  outerShell : Option LayerState
  middleShell : Option LayerState
  innerShell : Option LayerState
  middleRing : Option LayerState
  innerCore : Option LayerState
deriving DecidableEq

/-- `this.minCameraDistance = 3` (constructor, never reassigned). -/
def minCameraDistance : ℚ := 3

/-- `this.maxCameraDistance = 15` (constructor, never reassigned). -/
def maxCameraDistance : ℚ := 15

/-- The state after the constructor and `init()`: camera at
`(0, 2, 10)`, all timers zero, the three layers created and stored under
the `...Shell` names, `middleRing` and `innerCore` left `null`. -/
def initParticleSystem : PSState where
  cameraDistance := 10
  targetCameraDistance := 10
  sphereRotation := 0
  targetRotation := 0
  autoBreathTime := 0
  isHandControlled := false
  time := 0
  cameraX := 0
  cameraY := 2
  cameraZ := 10
  groupRotX := 0
  groupRotY := 0
  groupScale := 1
  outerShell := some (createParticleLayer layersOuter)
  middleShell := some (createParticleLayer layersMiddle)
  innerShell := some (createParticleLayer layersInner)
  middleRing := none
  innerCore := none

/-- The payload of a `handUpdate` event:
`{ detected, distance, rotation }`. -/
structure HandData where
  detected : Bool
  distance : ℚ
  rotation : ℚ

/-- `ParticleSystem.updateFromHand`, parametric in the value `piQ` of
`Math.PI`.  A detected frame maps the signal to targets and takes
hand authority; a non-detected frame immediately drops authority and
resets the targets to `10` and `0`. -/
def updateFromHand (piQ : ℚ) (s : PSState) (handData : HandData) : PSState :=
  if handData.detected then
    { s with isHandControlled := true,
             targetCameraDistance := minCameraDistance +
               handData.distance * (maxCameraDistance - minCameraDistance),
             targetRotation := handData.rotation * piQ / 180 }
  else
    { s with isHandControlled := false,
             targetCameraDistance := 10,
             targetRotation := 0 }

/-- The first half of `ParticleSystem.animateParticles`: the time
increment and the authority branch.  Hand-controlled: ease
`cameraDistance` and `sphereRotation` toward their targets at rate
`0.08` and write them to `camera.position.z` / `group.rotation.y`.
Autonomous: the breathing scale, constant-rate y-spin, periodic x-tilt
and periodic camera x/y of the idle animation. -/
def authorityStep (sinQ cosQ : ℚ → ℚ) (s : PSState) : PSState :=
  let s1 := { s with time := s.time + 1/100 }
  if s1.isHandControlled then
    let cd := s1.cameraDistance + (s1.targetCameraDistance - s1.cameraDistance) * (8/100)
    let sr := s1.sphereRotation + (s1.targetRotation - s1.sphereRotation) * (8/100)
    { s1 with cameraDistance := cd, cameraZ := cd, sphereRotation := sr, groupRotY := sr }
  else
    let abt := s1.autoBreathTime + 1/100
    { s1 with autoBreathTime := abt,
              groupScale := 1 + sinQ (abt * 2) * (5/100),
              groupRotY := s1.groupRotY + 2/1000,
              groupRotX := sinQ (abt * (1/2)) * (1/10),
              cameraX := sinQ (abt * (3/10)) * 1,
              cameraY := 2 + cosQ (abt * (2/10)) * (1/2) }

/-- `if (this.outerShell) { this.outerShell.rotation.z += 0.0003; }`. -/
def animOuter (s : PSState) : PSState :=
  match s.outerShell with
  | some l => { s with outerShell := some { l with rotZ := l.rotZ + 3/10000 } }
  | none => s

/-- `if (this.middleRing) { rotation.y += 0.001; opacity pulse }` — note
the guard is on `middleRing`, which `createParticleLayer` never assigns. -/
def animMiddle (sinQ : ℚ → ℚ) (s : PSState) : PSState :=
  match s.middleRing with
  | some l => { s with middleRing := some { l with
      rotY := l.rotY + 1/1000,
      opacity := layersMiddle.opacity * (1 + sinQ (s.time * 3) * (5/100)) } }
  | none => s

/-- `if (this.innerCore) { rotation.x += 0.002; size pulse }` — the
guard is on `innerCore`, which `createParticleLayer` never assigns. -/
def animInner (sinQ : ℚ → ℚ) (s : PSState) : PSState :=
  match s.innerCore with
  | some l => { s with innerCore := some { l with
      rotX := l.rotX + 2/1000,
      size := layersInner.size * (1 + sinQ (s.time * 4) * (1/10)) } }
  | none => s

/-- `ParticleSystem.animateParticles`: one render tick, parametric in
the values of `Math.sin` and `Math.cos`. -/
def animateParticles (sinQ cosQ : ℚ → ℚ) (s : PSState) : PSState :=
  animInner sinQ (animMiddle sinQ (animOuter (authorityStep sinQ cosQ s)))

/-- A hand-controlled state with the camera partway in, as after a run
of hand-driven ticks. -/
def handLostExample : PSState :=
  { initParticleSystem with cameraDistance := 5, cameraZ := 5, isHandControlled := true }

/-- A hand-controlled state used to witness the hand-branch equalities. -/
def psHandOn : PSState := { initParticleSystem with isHandControlled := true }

/-! ## Lemmas and theorems -/

lemma rawDistance_mem (h : ℚ) : 0 ≤ rawDistance h ∧ rawDistance h ≤ 1 := by
  unfold rawDistance
  exact ⟨le_max_left 0 _, max_le (by norm_num) (min_le_left 1 _)⟩

lemma reachableDistance_mem (s : ℚ) (hs : ReachableDistance s) :
    0 ≤ s ∧ s ≤ 1 := by
  induction hs with
  | init => norm_num
  | step t h ht hh ih =>
      obtain ⟨h1, h2⟩ := ih
      obtain ⟨h3, h4⟩ := rawDistance_mem h
      unfold calculateDistanceStep smoothingFactor
      constructor <;> nlinarith

/-- Claim C8: the pre-smoothing distance mapping is the clamped linear
map sending `handSize = 0.15` to `1`, `0.35` to `0` and `0.25` to `0.5`,
and with smoothing factor `0.3` the midpoint input leaves a prior state
of `0.5` exactly at `0.5`. -/
theorem distance_calibration_points :
    rawDistance (15/100) = 1 ∧ rawDistance (35/100) = 0 ∧
    rawDistance (25/100) = 1/2 ∧
    calculateDistanceStep (1/2) (25/100) = 1/2 := by
  refine ⟨?_, ?_, ?_, ?_⟩ <;>
    norm_num [rawDistance, calculateDistanceStep, smoothingFactor]

/-- Claim C6: for every nonnegative `handSize` input and every reachable
smoothed state, the conditioned distance output lies in `[0, 1]`. -/
theorem conditioned_distance_in_unit_interval (h s : ℚ) (h0 : 0 ≤ h)
    (hs : ReachableDistance s) :
    0 ≤ calculateDistanceStep s h ∧ calculateDistanceStep s h ≤ 1 := by
  obtain ⟨h1, h2⟩ := reachableDistance_mem s hs
  obtain ⟨h3, h4⟩ := rawDistance_mem h
  unfold calculateDistanceStep smoothingFactor
  constructor <;> nlinarith

/-- Witness for `conditioned_distance_in_unit_interval` at the initial
state `0.5` and `handSize = 0`. -/
theorem conditioned_distance_in_unit_interval_witness :
    0 ≤ calculateDistanceStep (1/2) 0 ∧ calculateDistanceStep (1/2) 0 ≤ 1 :=
  conditioned_distance_in_unit_interval 0 (1/2) (by norm_num)
    ReachableDistance.init

lemma correctedDelta_eq (state a : ℚ) :
    correctedDelta state a =
      (if (if normalizeAngle a - state > 180 then normalizeAngle a - state - 360
           else normalizeAngle a - state) < -180
       then (if normalizeAngle a - state > 180 then normalizeAngle a - state - 360
             else normalizeAngle a - state) + 360
       else (if normalizeAngle a - state > 180 then normalizeAngle a - state - 360
             else normalizeAngle a - state)) := rfl

lemma normalizeAngle_eq_self (a : ℚ) (h1 : -180 ≤ a) (h2 : a < 180) :
    normalizeAngle a = a := by
  have h0 : (0:ℚ) ≤ (a + 180) / 360 := div_nonneg (by linarith) (by norm_num)
  have hlt : (a + 180) / 360 < 1 := by
    rw [div_lt_one (by norm_num)]
    linarith
  have hf : ⌊(a + 180) / 360⌋ = 0 :=
    Int.floor_eq_zero_iff.mpr (Set.mem_Ico.mpr ⟨h0, hlt⟩)
  unfold normalizeAngle jsRem ratTrunc
  rw [if_pos h0, hf]
  push_cast
  ring

/-- The in-function normalization maps the closed range of `Math.atan2`
into `[-180, 180)`; both endpoints `±180` are sent to `-180`. -/
lemma normalizeAngle_mem (a : ℚ) (h1 : -180 ≤ a) (h2 : a ≤ 180) :
    -180 ≤ normalizeAngle a ∧ normalizeAngle a < 180 := by
  rcases eq_or_lt_of_le h2 with h | h
  · subst h
    norm_num [normalizeAngle, jsRem, ratTrunc]
  · rw [normalizeAngle_eq_self a h1 h]
    exact ⟨h1, h⟩

/-- One conditioning step maps any state in `(-540, 540)` back into
`(-540, 540)` when the raw angle is a possible `atan2` output. -/
lemma calculateRotationStep_mem (s a : ℚ) (hs1 : -540 < s) (hs2 : s < 540)
    (h1 : -180 ≤ a) (h2 : a ≤ 180) :
    -540 < calculateRotationStep s a ∧ calculateRotationStep s a < 540 := by
  obtain ⟨hn1, hn2⟩ := normalizeAngle_mem a h1 h2
  unfold calculateRotationStep smoothingFactor
  rw [correctedDelta_eq]
  split_ifs <;> constructor <;> linarith

/-- As long as the state lies in `[-360, 360]`, the single wrap-around
correction does bound the smoothing delta by `±180`. -/
lemma correctedDelta_bound (s a : ℚ) (hs1 : -360 ≤ s) (hs2 : s ≤ 360)
    (h1 : -180 ≤ a) (h2 : a ≤ 180) :
    -180 ≤ correctedDelta s a ∧ correctedDelta s a ≤ 180 := by
  obtain ⟨hn1, hn2⟩ := normalizeAngle_mem a h1 h2
  rw [correctedDelta_eq]
  split_ifs <;> constructor <;> linarith

lemma rotationStep_no_wrap (s a : ℚ) (h1 : -180 ≤ normalizeAngle a - s)
    (h2 : normalizeAngle a - s ≤ 180) :
    calculateRotationStep s a = s + (normalizeAngle a - s) * (3/10) := by
  have hin : ¬ (normalizeAngle a - s > 180) := by linarith
  unfold calculateRotationStep smoothingFactor
  rw [correctedDelta_eq, if_neg hin,
    if_neg (by linarith : ¬ (normalizeAngle a - s < -180))]

lemma rotationStep_wrap_up (s a : ℚ) (h1 : normalizeAngle a - s < -180) :
    calculateRotationStep s a = s + (normalizeAngle a - s + 360) * (3/10) := by
  have hin : ¬ (normalizeAngle a - s > 180) := by linarith
  unfold calculateRotationStep smoothingFactor
  rw [correctedDelta_eq, if_neg hin, if_pos h1]

/-- Claim C1 is false as stated: the concrete detected-frame raw-angle
sequence `150, 150, 150, 150, 150, 150, -60` (all within the `atan2`
range) drives the smoothed rotation from `0` to `182.646855 > 180`, so
the smoothed rotation does not stay in `(-180, 180]`. -/
theorem smoothed_rotation_escapes_range :
    escapeState = 182646855/1000000 ∧ ReachableRotation escapeState ∧
    180 < escapeState := by
  refine ⟨?_, ?_, ?_⟩
  · norm_num [escapeState, escapeInputs, List.foldl, calculateRotationStep,
      correctedDelta, normalizeAngle, jsRem, ratTrunc, smoothingFactor]
  · exact ReachableRotation.step _ (-60)
      (ReachableRotation.step _ 150
        (ReachableRotation.step _ 150
          (ReachableRotation.step _ 150
            (ReachableRotation.step _ 150
              (ReachableRotation.step _ 150
                (ReachableRotation.step _ 150 ReachableRotation.init
                  (by norm_num) (by norm_num))
                (by norm_num) (by norm_num))
              (by norm_num) (by norm_num))
            (by norm_num) (by norm_num))
          (by norm_num) (by norm_num))
        (by norm_num) (by norm_num))
      (by norm_num) (by norm_num)
  · norm_num [escapeState, escapeInputs, List.foldl, calculateRotationStep,
      correctedDelta, normalizeAngle, jsRem, ratTrunc, smoothingFactor]

/-- Claim C1 (amended): for every sequence of detected frames, the
smoothed rotation held in the persistent state and returned after
conditioning lies in the open interval `(-540, 540)`; it need not stay
inside `(-180, 180]`. -/
theorem smoothed_rotation_bounded (s : ℚ) (h : ReachableRotation s) :
    -540 < s ∧ s < 540 := by
  induction h with
  | init => norm_num
  | step t a ht ha1 ha2 ih => exact calculateRotationStep_mem t a ih.1 ih.2 ha1 ha2

/-- Witness for `smoothed_rotation_bounded` at the initial state. -/
theorem smoothed_rotation_bounded_witness : -540 < (0:ℚ) ∧ (0:ℚ) < 540 :=
  smoothed_rotation_bounded 0 ReachableRotation.init

/-- Claim C2 is false as stated: at the reachable smoothed state `375.9`
a next frame with raw angle `-179` produces a corrected delta of
`-194.9`, whose absolute value exceeds `180` even after the wrap-around
correction (the raw delta `-554.9` is corrected only once, by `+360`). -/
theorem corrected_delta_exceeds_180 :
    pumpState = 3759/10 ∧ ReachableRotation pumpState ∧
    correctedDelta pumpState (-179) = -1949/10 ∧
    180 < |correctedDelta pumpState (-179)| := by
  refine ⟨?_, ?_, ?_, ?_⟩
  · norm_num [pumpState, pumpInputs, List.foldl, calculateRotationStep,
      correctedDelta, normalizeAngle, jsRem, ratTrunc, smoothingFactor]
  · exact ReachableRotation.step _ (1412/10)
      (ReachableRotation.step _ (875/10)
        (ReachableRotation.step _ (338/10)
          (ReachableRotation.step _ (-199/10)
            (ReachableRotation.step _ (-736/10)
              (ReachableRotation.step _ (-1273/10)
                (ReachableRotation.step _ 179 ReachableRotation.init
                  (by norm_num) (by norm_num))
                (by norm_num) (by norm_num))
              (by norm_num) (by norm_num))
            (by norm_num) (by norm_num))
          (by norm_num) (by norm_num))
        (by norm_num) (by norm_num))
      (by norm_num) (by norm_num)
  · norm_num [pumpState, pumpInputs, List.foldl, calculateRotationStep,
      correctedDelta, normalizeAngle, jsRem, ratTrunc, smoothingFactor]
  · have h : correctedDelta pumpState (-179) = -1949/10 := by
      norm_num [pumpState, pumpInputs, List.foldl, calculateRotationStep,
        correctedDelta, normalizeAngle, jsRem, ratTrunc, smoothingFactor]
    rw [h, abs_of_nonpos (by norm_num : (-1949/10:ℚ) ≤ 0)]
    norm_num

lemma oscInput_cases (n : ℕ) : oscInput n = 179 ∨ oscInput n = -179 := by
  unfold oscInput
  split_ifs
  · exact Or.inl rfl
  · exact Or.inr rfl

lemma osc_step_wide (s : ℚ) (h1 : 537/10 ≤ s) (h2 : s ≤ 187) (n : ℕ) :
    537/10 ≤ calculateRotationStep s (oscInput n) ∧
    calculateRotationStep s (oscInput n) ≤ 187 := by
  have hp : normalizeAngle (179:ℚ) = 179 :=
    normalizeAngle_eq_self _ (by norm_num) (by norm_num)
  have hm : normalizeAngle (-179:ℚ) = -179 :=
    normalizeAngle_eq_self _ (by norm_num) (by norm_num)
  rcases oscInput_cases n with h | h <;> rw [h]
  · rw [rotationStep_no_wrap s 179 (by rw [hp]; linarith) (by rw [hp]; linarith), hp]
    constructor <;> linarith
  · rw [rotationStep_wrap_up s (-179) (by rw [hm]; linarith), hm]
    constructor <;> linarith

lemma osc_step_tight (s : ℚ) (h1 : 172 ≤ s) (h2 : s ≤ 186) (n : ℕ) :
    172 ≤ calculateRotationStep s (oscInput n) ∧
    calculateRotationStep s (oscInput n) ≤ 186 := by
  have hp : normalizeAngle (179:ℚ) = 179 :=
    normalizeAngle_eq_self _ (by norm_num) (by norm_num)
  have hm : normalizeAngle (-179:ℚ) = -179 :=
    normalizeAngle_eq_self _ (by norm_num) (by norm_num)
  rcases oscInput_cases n with h | h <;> rw [h]
  · rw [rotationStep_no_wrap s 179 (by rw [hp]; linarith) (by rw [hp]; linarith), hp]
    constructor <;> linarith
  · rw [rotationStep_wrap_up s (-179) (by rw [hm]; linarith), hm]
    constructor <;> linarith

lemma oscSeq_wide : ∀ n : ℕ, 537/10 ≤ oscSeq (n+1) ∧ oscSeq (n+1) ≤ 187 := by
  intro n
  induction n with
  | zero =>
      norm_num [oscSeq, oscInput, calculateRotationStep, correctedDelta,
        normalizeAngle, jsRem, ratTrunc, smoothingFactor]
  | succ m ih =>
      show 537/10 ≤ calculateRotationStep (oscSeq (m+1)) (oscInput (m+1)) ∧ _
      exact osc_step_wide (oscSeq (m+1)) ih.1 ih.2 (m+1)

lemma oscSeq_nonneg : ∀ n : ℕ, 0 ≤ oscSeq n
  | 0 => le_refl 0
  | n + 1 => by
      have := (oscSeq_wide n).1
      linarith

lemma oscSeq_tight (n : ℕ) (hn : 9 ≤ n) : 172 ≤ oscSeq n ∧ oscSeq n ≤ 186 := by
  induction n, hn using Nat.le_induction with
  | base =>
      norm_num [oscSeq, oscInput, calculateRotationStep, correctedDelta,
        normalizeAngle, jsRem, ratTrunc, smoothingFactor]
  | succ m hm ih =>
      show 172 ≤ calculateRotationStep (oscSeq m) (oscInput m) ∧ _
      exact osc_step_tight (oscSeq m) ih.1 ih.2 m

/-- Claim C2 (amended): rotation smoothing computes
`delta = raw - state`, subtracts `360` if `delta > 180`, adds `360` if
`delta < -180`, then applies `state += delta * 0.3` (the definitions of
`correctedDelta` and `calculateRotationStep`).  The corrected per-step
delta satisfies `|delta| ≤ 180` whenever the current state lies in
`[-360, 360]` — but not at every reachable state (see the
counterexample).  Feeding raw angles oscillating across the `±180°`
boundary (`179°, -179°, 179°, -179°, ...`) from the initial state keeps
the smoothed value nonnegative (it never transits through `0` again)
and from step 9 onward confines it to `[172, 186]`, i.e. near `+180`. -/
theorem rotation_wrap_behavior :
    (∀ s a : ℚ, -360 ≤ s → s ≤ 360 → -180 ≤ a → a ≤ 180 →
      -180 ≤ correctedDelta s a ∧ correctedDelta s a ≤ 180) ∧
    (∀ n : ℕ, 0 ≤ oscSeq n) ∧
    (∀ n : ℕ, 9 ≤ n → 172 ≤ oscSeq n ∧ oscSeq n ≤ 186) :=
  ⟨correctedDelta_bound, oscSeq_nonneg, oscSeq_tight⟩

/-- Witness for `rotation_wrap_behavior` at concrete inputs. -/
theorem rotation_wrap_behavior_witness :
    (-180 ≤ correctedDelta 0 0 ∧ correctedDelta 0 0 ≤ 180) ∧ 172 ≤ oscSeq 9 :=
  ⟨rotation_wrap_behavior.1 0 0 (by norm_num) (by norm_num) (by norm_num)
      (by norm_num),
    (rotation_wrap_behavior.2.2 9 (le_refl 9)).1⟩

lemma jsSub_none_right (x : JsNum) : jsSub x none = none := by cases x <;> rfl

lemma jsAdd_none_left (y : JsNum) : jsAdd none y = none := by cases y <;> rfl

lemma jsMul_none_left (y : JsNum) : jsMul none y = none := by cases y <;> rfl

lemma calculateDistanceJs_nan (sq : ℚ → ℚ) (st : TrackerState)
    (lms : List Landmark) (st1 : TrackerState)
    (h : st.smoothedDistance = none)
    (hok : calculateDistanceJs sq st lms = .ok st1) :
    st1.smoothedDistance = none := by
  unfold calculateDistanceJs at hok
  cases h0 : lms.get? 0 with
  | none => rw [h0] at hok; exact Except.noConfusion hok
  | some wrist =>
      cases h12 : lms.get? 12 with
      | none => rw [h0, h12] at hok; exact Except.noConfusion hok
      | some tip =>
          rw [h0, h12] at hok
          injection hok with h1
          rw [← h1]
          simp [h, jsSub_none_right, jsMul_none_left, jsAdd_none_left]

lemma calculateDistanceJs_rot (sq : ℚ → ℚ) (st : TrackerState)
    (lms : List Landmark) (st1 : TrackerState)
    (hok : calculateDistanceJs sq st lms = .ok st1) :
    st1.smoothedRotation = st.smoothedRotation := by
  unfold calculateDistanceJs at hok
  cases h0 : lms.get? 0 with
  | none => rw [h0] at hok; exact Except.noConfusion hok
  | some wrist =>
      cases h12 : lms.get? 12 with
      | none => rw [h0, h12] at hok; exact Except.noConfusion hok
      | some tip =>
          rw [h0, h12] at hok
          injection hok with h1
          rw [← h1]

lemma calculateRotationJs_nan (at2 : ℚ → ℚ → ℚ) (st : TrackerState)
    (lms : List Landmark) (st1 : TrackerState)
    (h : st.smoothedRotation = none)
    (hok : calculateRotationJs at2 st lms = .ok st1) :
    st1.smoothedRotation = none := by
  unfold calculateRotationJs at hok
  cases h0 : lms.get? 0 with
  | none => rw [h0] at hok; exact Except.noConfusion hok
  | some wrist =>
      cases h9 : lms.get? 9 with
      | none => rw [h0, h9] at hok; exact Except.noConfusion hok
      | some base =>
          rw [h0, h9] at hok
          injection hok with h1
          rw [← h1]
          simp [h, jsSub_none_right, jsMul_none_left, jsAdd_none_left]

lemma calculateRotationJs_dist (at2 : ℚ → ℚ → ℚ) (st : TrackerState)
    (lms : List Landmark) (st1 : TrackerState)
    (hok : calculateRotationJs at2 st lms = .ok st1) :
    st1.smoothedDistance = st.smoothedDistance := by
  unfold calculateRotationJs at hok
  cases h0 : lms.get? 0 with
  | none => rw [h0] at hok; exact Except.noConfusion hok
  | some wrist =>
      cases h9 : lms.get? 9 with
      | none => rw [h0, h9] at hok; exact Except.noConfusion hok
      | some base =>
          rw [h0, h9] at hok
          injection hok with h1
          rw [← h1]

lemma onResultsJs_nan (sq : ℚ → ℚ) (at2 : ℚ → ℚ → ℚ) (st : TrackerState)
    (f : Option (List Landmark)) (st2 : TrackerState)
    (hd : st.smoothedDistance = none) (hr : st.smoothedRotation = none)
    (hok : onResultsJs sq at2 st f = .ok st2) :
    st2.smoothedDistance = none ∧ st2.smoothedRotation = none := by
  cases f with
  | none =>
      simp only [onResultsJs] at hok
      injection hok with h1
      rw [← h1]
      exact ⟨hd, hr⟩
  | some lms =>
      simp only [onResultsJs] at hok
      by_cases hl : 0 < lms.length
      · rw [if_pos hl] at hok
        cases hD : calculateDistanceJs sq st lms with
        | error e => rw [hD] at hok; exact Except.noConfusion hok
        | ok stA =>
            rw [hD] at hok
            have hok2 : (match calculateRotationJs at2 stA lms with
              | .error e => (Except.error e : Except Unit TrackerState)
              | .ok stB => .ok { stB with detected := true }) = .ok st2 := hok
            cases hR : calculateRotationJs at2 stA lms with
            | error e => rw [hR] at hok2; exact Except.noConfusion hok2
            | ok stB =>
                rw [hR] at hok2
                injection hok2 with h1
                rw [← h1]
                have hA1 : stA.smoothedDistance = none :=
                  calculateDistanceJs_nan sq st lms stA hd hD
                have hA2 : stA.smoothedRotation = none := by
                  rw [calculateDistanceJs_rot sq st lms stA hD]; exact hr
                have hB1 : stB.smoothedDistance = none := by
                  rw [calculateRotationJs_dist at2 stA lms stB hR]; exact hA1
                have hB2 : stB.smoothedRotation = none :=
                  calculateRotationJs_nan at2 stA lms stB hA2 hR
                exact ⟨hB1, hB2⟩
      · rw [if_neg hl] at hok
        injection hok with h1
        rw [← h1]
        exact ⟨hd, hr⟩

lemma processFrames_nan (sq : ℚ → ℚ) (at2 : ℚ → ℚ → ℚ) :
    ∀ (frames : List (Option (List Landmark))) (st : TrackerState),
    st.smoothedDistance = none → st.smoothedRotation = none →
    (processFrames sq at2 frames st).smoothedDistance = none ∧
    (processFrames sq at2 frames st).smoothedRotation = none
  | [], st, hd, hr => ⟨hd, hr⟩
  | f :: rest, st, hd, hr => by
      cases hok : onResultsJs sq at2 st f with
      | ok st1 =>
          have hn := onResultsJs_nan sq at2 st f st1 hd hr hok
          have hgoal := processFrames_nan sq at2 rest st1 hn.1 hn.2
          simpa [processFrames, List.foldl, hok] using hgoal
      | error e =>
          have hgoal := processFrames_nan sq at2 rest st hd hr
          simpa [processFrames, List.foldl, hok] using hgoal

lemma processFrames_none_run (sq : ℚ → ℚ) (at2 : ℚ → ℚ → ℚ) :
    ∀ (n : ℕ) (st : TrackerState),
    processFrames sq at2 (List.replicate (n+1) none) st =
      { st with detected := false }
  | 0, st => rfl
  | n+1, st => by
      have ih := processFrames_none_run sq at2 n { st with detected := false }
      simp only [List.replicate_succ]
      show processFrames sq at2 (List.replicate (n+1) none)
        { st with detected := false } = _
      exact ih

/-- Claim C3 is false as stated: a malformed frame carrying the expected
21 landmarks whose coordinates are all `NaN` is processed as a detected
frame (`detected := true`), and it overwrites the prior smoothed state
`(0.5, 0)` with `NaN` in both channels — the state is changed, and a
non-finite value enters it. -/
theorem nan_frame_poisons_state :
    onResultsJs zeroFun zeroFun2 initTracker (some nanFrame) =
      .ok ⟨true, none, none⟩ ∧
    initTracker.smoothedDistance = some (1/2) ∧
    initTracker.smoothedRotation = some 0 ∧
    (some (1/2) : JsNum) ≠ none ∧ (some 0 : JsNum) ≠ none :=
  ⟨rfl, rfl, rfl, by simp, by simp⟩

/-- Claim C3 (amended): only an absent or empty landmark list is treated
as a no-hand frame (state unchanged, `detected` cleared).  A malformed
nonempty frame is not: with fewer than 13 landmarks the callback throws
a `TypeError` (aborting before any state mutation), and with 13 or more
landmarks it is processed as a detected frame, so `NaN` coordinates
propagate `NaN` into the smoothed state, where it then persists across
every subsequent frame. -/
theorem malformed_frame_handling :
    (∀ (sq : ℚ → ℚ) (at2 : ℚ → ℚ → ℚ) (st : TrackerState),
      onResultsJs sq at2 st none = .ok { st with detected := false }) ∧
    (∀ (sq : ℚ → ℚ) (at2 : ℚ → ℚ → ℚ) (st : TrackerState),
      onResultsJs sq at2 st (some []) = .ok { st with detected := false }) ∧
    (∀ (sq : ℚ → ℚ) (at2 : ℚ → ℚ → ℚ) (st : TrackerState),
      onResultsJs sq at2 st (some shortFrame) = .error ()) ∧
    (∀ (sq : ℚ → ℚ) (at2 : ℚ → ℚ → ℚ),
      onResultsJs sq at2 initTracker (some nanFrame) = .ok ⟨true, none, none⟩) ∧
    (∀ (sq : ℚ → ℚ) (at2 : ℚ → ℚ → ℚ) (frames : List (Option (List Landmark)))
      (st : TrackerState),
      st.smoothedDistance = none → st.smoothedRotation = none →
      (processFrames sq at2 frames st).smoothedDistance = none ∧
      (processFrames sq at2 frames st).smoothedRotation = none) :=
  ⟨fun _ _ _ => rfl, fun _ _ _ => rfl, fun _ _ _ => rfl, fun _ _ => rfl,
    fun sq at2 frames st hd hr => processFrames_nan sq at2 frames st hd hr⟩

/-- Witness for `malformed_frame_handling` (the `NaN`-persistence
conjunct, at a concrete poisoned state). -/
theorem malformed_frame_handling_witness :
    (processFrames zeroFun zeroFun2 [none] ⟨false, none, none⟩).smoothedDistance
      = none ∧
    (processFrames zeroFun zeroFun2 [none] ⟨false, none, none⟩).smoothedRotation
      = none :=
  malformed_frame_handling.2.2.2.2 zeroFun zeroFun2 [none]
    ⟨false, none, none⟩ rfl rfl

/-- Claim C9: any run of consecutive no-hand frames leaves the smoothed
control signal bit-identical — the resulting tracker state is exactly
the old state with only the `detected` flag cleared — and a non-detected
`handUpdate` puts the particle system in autonomous authority
(`isHandControlled = false`). -/
theorem no_hand_frames_idempotent :
    (∀ (sq : ℚ → ℚ) (at2 : ℚ → ℚ → ℚ) (n : ℕ) (st : TrackerState),
      processFrames sq at2 (List.replicate (n+1) none) st =
        { st with detected := false }) ∧
    (∀ (piQ : ℚ) (s : PSState) (d r : ℚ),
      (updateFromHand piQ s ⟨false, d, r⟩).isHandControlled = false) :=
  ⟨fun sq at2 n st => processFrames_none_run sq at2 n st,
    fun _ _ _ _ => rfl⟩

lemma decor_transform_fields (sinQ : ℚ → ℚ) (s : PSState) :
    (animInner sinQ (animMiddle sinQ (animOuter s))).cameraDistance = s.cameraDistance ∧
    (animInner sinQ (animMiddle sinQ (animOuter s))).cameraZ = s.cameraZ ∧
    (animInner sinQ (animMiddle sinQ (animOuter s))).sphereRotation = s.sphereRotation ∧
    (animInner sinQ (animMiddle sinQ (animOuter s))).groupRotY = s.groupRotY ∧
    (animInner sinQ (animMiddle sinQ (animOuter s))).groupScale = s.groupScale ∧
    (animInner sinQ (animMiddle sinQ (animOuter s))).groupRotX = s.groupRotX ∧
    (animInner sinQ (animMiddle sinQ (animOuter s))).cameraX = s.cameraX ∧
    (animInner sinQ (animMiddle sinQ (animOuter s))).cameraY = s.cameraY ∧
    (animInner sinQ (animMiddle sinQ (animOuter s))).time = s.time ∧
    (animInner sinQ (animMiddle sinQ (animOuter s))).isHandControlled = s.isHandControlled ∧
    (animInner sinQ (animMiddle sinQ (animOuter s))).middleShell = s.middleShell ∧
    (animInner sinQ (animMiddle sinQ (animOuter s))).innerShell = s.innerShell := by
  cases h1 : s.outerShell <;> cases h2 : s.middleRing <;> cases h3 : s.innerCore <;>
    simp [animOuter, animMiddle, animInner, h1, h2, h3]

lemma authorityStep_hand (sinQ cosQ : ℚ → ℚ) (s : PSState)
    (h : s.isHandControlled = true) :
    (authorityStep sinQ cosQ s).cameraDistance =
      s.cameraDistance + (s.targetCameraDistance - s.cameraDistance) * (8/100) ∧
    (authorityStep sinQ cosQ s).cameraZ =
      s.cameraDistance + (s.targetCameraDistance - s.cameraDistance) * (8/100) ∧
    (authorityStep sinQ cosQ s).groupRotY =
      s.sphereRotation + (s.targetRotation - s.sphereRotation) * (8/100) ∧
    (authorityStep sinQ cosQ s).groupScale = s.groupScale ∧
    (authorityStep sinQ cosQ s).groupRotX = s.groupRotX ∧
    (authorityStep sinQ cosQ s).cameraX = s.cameraX ∧
    (authorityStep sinQ cosQ s).cameraY = s.cameraY := by
  refine ⟨?_, ?_, ?_, ?_, ?_, ?_, ?_⟩ <;> simp [authorityStep, h]

lemma authorityStep_auto (sinQ cosQ : ℚ → ℚ) (s : PSState)
    (h : s.isHandControlled = false) :
    (authorityStep sinQ cosQ s).cameraDistance = s.cameraDistance ∧
    (authorityStep sinQ cosQ s).cameraZ = s.cameraZ := by
  refine ⟨?_, ?_⟩ <;> simp [authorityStep, h]

lemma authorityStep_layers (sinQ cosQ : ℚ → ℚ) (s : PSState) :
    (authorityStep sinQ cosQ s).outerShell = s.outerShell ∧
    (authorityStep sinQ cosQ s).middleShell = s.middleShell ∧
    (authorityStep sinQ cosQ s).innerShell = s.innerShell ∧
    (authorityStep sinQ cosQ s).middleRing = s.middleRing ∧
    (authorityStep sinQ cosQ s).innerCore = s.innerCore := by
  refine ⟨?_, ?_, ?_, ?_, ?_⟩ <;> cases h : s.isHandControlled <;>
    simp [authorityStep, h]

lemma animOuter_layers (s : PSState) :
    (animOuter s).middleShell = s.middleShell ∧
    (animOuter s).innerShell = s.innerShell ∧
    (animOuter s).middleRing = s.middleRing ∧
    (animOuter s).innerCore = s.innerCore := by
  cases h : s.outerShell <;> simp [animOuter, h]

lemma animMiddle_none (sinQ : ℚ → ℚ) (s : PSState) (h : s.middleRing = none) :
    animMiddle sinQ s = s := by
  simp [animMiddle, h]

lemma animInner_none (sinQ : ℚ → ℚ) (s : PSState) (h : s.innerCore = none) :
    animInner sinQ s = s := by
  simp [animInner, h]

lemma tick_no_rings (sinQ cosQ : ℚ → ℚ) (s : PSState)
    (hm : s.middleRing = none) (hi : s.innerCore = none) :
    (animateParticles sinQ cosQ s).middleRing = none ∧
    (animateParticles sinQ cosQ s).innerCore = none ∧
    (animateParticles sinQ cosQ s).middleShell = s.middleShell ∧
    (animateParticles sinQ cosQ s).innerShell = s.innerShell := by
  unfold animateParticles
  have ha := authorityStep_layers sinQ cosQ s
  have ho := animOuter_layers (authorityStep sinQ cosQ s)
  have h1 : (animOuter (authorityStep sinQ cosQ s)).middleRing = none :=
    ho.2.2.1.trans (ha.2.2.2.1.trans hm)
  have h2 : (animOuter (authorityStep sinQ cosQ s)).innerCore = none :=
    ho.2.2.2.trans (ha.2.2.2.2.trans hi)
  rw [animMiddle_none sinQ _ h1, animInner_none sinQ _ h2]
  exact ⟨h1, h2, ho.1.trans ha.2.1, ho.2.1.trans ha.2.2.1⟩

/-- Claim C5 evaluated against the code: because `createParticleLayer`
stores the layers under `outerShell`, `middleShell` and `innerShell`
while `animateParticles` animates `this.middleRing` and
`this.innerCore` (never assigned, still `null`), the golden ring's
opacity pulse and the core's size pulse never execute — after any
number of render ticks the middle and inner layer materials still carry
their initial opacity `0.9` and size `0.08`. -/
theorem pulse_layers_never_animated (sinQ cosQ : ℚ → ℚ) (n : ℕ) :
    ((animateParticles sinQ cosQ)^[n] initParticleSystem).middleRing = none ∧
    ((animateParticles sinQ cosQ)^[n] initParticleSystem).innerCore = none ∧
    ((animateParticles sinQ cosQ)^[n] initParticleSystem).middleShell =
      some (createParticleLayer layersMiddle) ∧
    ((animateParticles sinQ cosQ)^[n] initParticleSystem).innerShell =
      some (createParticleLayer layersInner) := by
  induction n with
  | zero => exact ⟨rfl, rfl, rfl, rfl⟩
  | succ m ih =>
      obtain ⟨h1, h2, h3, h4⟩ := ih
      simp only [Function.iterate_succ_apply']
      have ht := tick_no_rings sinQ cosQ
        ((animateParticles sinQ cosQ)^[m] initParticleSystem) h1 h2
      exact ⟨ht.1, ht.2.1, ht.2.2.1.trans h3, ht.2.2.2.trans h4⟩

/-- Claim C4 is false as stated: from a hand-controlled state with
camera distance `5`, the first non-detected frame resets the targets to
`(10, 0)` and drops authority, but the next render tick (now in the
autonomous branch) leaves the camera distance at `5` — it is not eased
toward `10`, which the claimed `0.08` blend would move to `5.4`. -/
theorem autonomous_tick_does_not_ease :
    (animateParticles zeroFun zeroFun
        (updateFromHand 0 handLostExample ⟨false, 0, 0⟩)).cameraDistance = 5 ∧
    (animateParticles zeroFun zeroFun
        (updateFromHand 0 handLostExample ⟨false, 0, 0⟩)).cameraZ = 5 ∧
    (updateFromHand 0 handLostExample ⟨false, 0, 0⟩).isHandControlled = false ∧
    (updateFromHand 0 handLostExample ⟨false, 0, 0⟩).targetCameraDistance = 10 ∧
    ((5:ℚ) + (10 - 5) * (8/100) ≠ 5) :=
  ⟨rfl, rfl, rfl, rfl, by norm_num⟩

/-- Claim C4 (amended): on the very first frame with
`handData.detected = false` the authority flips to autonomous
(`isHandControlled := false`, no debounce) and the targets are reset
immediately to `cameraDistance = 10` and `rotation = 0`; but subsequent
render ticks run the idle-breathing branch, which leaves the actual
camera distance unchanged — the `0.08` easing toward the targets runs
only on hand-controlled ticks. -/
theorem hand_loss_behavior :
    (∀ (piQ : ℚ) (s : PSState) (d r : ℚ),
      updateFromHand piQ s ⟨false, d, r⟩ =
        { s with isHandControlled := false, targetCameraDistance := 10,
                 targetRotation := 0 }) ∧
    (∀ (sinQ cosQ : ℚ → ℚ) (s : PSState), s.isHandControlled = false →
      (animateParticles sinQ cosQ s).cameraDistance = s.cameraDistance ∧
      (animateParticles sinQ cosQ s).cameraZ = s.cameraZ) ∧
    (∀ (sinQ cosQ : ℚ → ℚ) (s : PSState), s.isHandControlled = true →
      (animateParticles sinQ cosQ s).cameraDistance =
        s.cameraDistance + (s.targetCameraDistance - s.cameraDistance) * (8/100)) := by
  refine ⟨fun piQ s d r => rfl, ?_, ?_⟩
  · intro sinQ cosQ s h
    have hd := decor_transform_fields sinQ (authorityStep sinQ cosQ s)
    have ha := authorityStep_auto sinQ cosQ s h
    unfold animateParticles
    exact ⟨hd.1.trans ha.1, hd.2.1.trans ha.2⟩
  · intro sinQ cosQ s h
    have hd := decor_transform_fields sinQ (authorityStep sinQ cosQ s)
    have ha := authorityStep_hand sinQ cosQ s h
    unfold animateParticles
    exact hd.1.trans ha.1

/-- Witness for `hand_loss_behavior` at concrete states. -/
theorem hand_loss_behavior_witness :
    ((animateParticles zeroFun zeroFun initParticleSystem).cameraDistance =
        initParticleSystem.cameraDistance ∧
      (animateParticles zeroFun zeroFun initParticleSystem).cameraZ =
        initParticleSystem.cameraZ) ∧
    (animateParticles zeroFun zeroFun psHandOn).cameraDistance =
      psHandOn.cameraDistance +
        (psHandOn.targetCameraDistance - psHandOn.cameraDistance) * (8/100) :=
  ⟨hand_loss_behavior.2.1 zeroFun zeroFun initParticleSystem rfl,
    hand_loss_behavior.2.2 zeroFun zeroFun psHandOn rfl⟩

/-- Claim C7: on a detected frame with signal distance `d` and rotation
`r`, the target camera distance is
`minCameraDistance + d * (maxCameraDistance - minCameraDistance)
 = 3 + d * (15 - 3)` — in particular `3`, `9`, `15` at `d = 0, 0.5, 1` —
and the target rotation is `r * π / 180`. -/
theorem target_mapping (piQ : ℚ) (s : PSState) (d r : ℚ) :
    (updateFromHand piQ s ⟨true, d, r⟩).targetCameraDistance = 3 + d * (15 - 3) ∧
    (updateFromHand piQ s ⟨true, 0, r⟩).targetCameraDistance = 3 ∧
    (updateFromHand piQ s ⟨true, 1/2, r⟩).targetCameraDistance = 9 ∧
    (updateFromHand piQ s ⟨true, 1, r⟩).targetCameraDistance = 15 ∧
    (updateFromHand piQ s ⟨true, d, r⟩).targetRotation = r * piQ / 180 := by
  refine ⟨?_, ?_, ?_, ?_, ?_⟩ <;>
    simp [updateFromHand, minCameraDistance, maxCameraDistance] <;> norm_num

/-- Claim C10: a hand-controlled render tick writes the eased zoom to
the camera's z-position and the eased rotation to the group's
y-rotation, and leaves the group scale, the group's x-rotation and the
camera's x/y positions exactly as the last autonomous tick set them. -/
theorem hand_tick_touches_only_zoom_and_yaw (sinQ cosQ : ℚ → ℚ) (s : PSState)
    (h : s.isHandControlled = true) :
    (animateParticles sinQ cosQ s).cameraZ =
      s.cameraDistance + (s.targetCameraDistance - s.cameraDistance) * (8/100) ∧
    (animateParticles sinQ cosQ s).groupRotY =
      s.sphereRotation + (s.targetRotation - s.sphereRotation) * (8/100) ∧
    (animateParticles sinQ cosQ s).groupScale = s.groupScale ∧
    (animateParticles sinQ cosQ s).groupRotX = s.groupRotX ∧
    (animateParticles sinQ cosQ s).cameraX = s.cameraX ∧
    (animateParticles sinQ cosQ s).cameraY = s.cameraY := by
  have hd := decor_transform_fields sinQ (authorityStep sinQ cosQ s)
  have ha := authorityStep_hand sinQ cosQ s h
  unfold animateParticles
  exact ⟨hd.2.1.trans ha.2.1,
         hd.2.2.2.1.trans ha.2.2.1,
         hd.2.2.2.2.1.trans ha.2.2.2.1,
         hd.2.2.2.2.2.1.trans ha.2.2.2.2.1,
         hd.2.2.2.2.2.2.1.trans ha.2.2.2.2.2.1,
         hd.2.2.2.2.2.2.2.1.trans ha.2.2.2.2.2.2⟩

/-- Witness for `hand_tick_touches_only_zoom_and_yaw` at a concrete
hand-controlled state. -/
theorem hand_tick_touches_only_zoom_and_yaw_witness :
    (animateParticles zeroFun zeroFun psHandOn).cameraZ =
      psHandOn.cameraDistance +
        (psHandOn.targetCameraDistance - psHandOn.cameraDistance) * (8/100) ∧
    (animateParticles zeroFun zeroFun psHandOn).groupRotY =
      psHandOn.sphereRotation +
        (psHandOn.targetRotation - psHandOn.sphereRotation) * (8/100) ∧
    (animateParticles zeroFun zeroFun psHandOn).groupScale = psHandOn.groupScale ∧
    (animateParticles zeroFun zeroFun psHandOn).groupRotX = psHandOn.groupRotX ∧
    (animateParticles zeroFun zeroFun psHandOn).cameraX = psHandOn.cameraX ∧
    (animateParticles zeroFun zeroFun psHandOn).cameraY = psHandOn.cameraY :=
  hand_tick_touches_only_zoom_and_yaw zeroFun zeroFun psHandOn rfl

end Saturn
